import Mathlib

set_option maxRecDepth 100000

/-!
Verification development for the cwk-gen image-composition library.

The definitions in this file are shallow embeddings of the JavaScript
source: pure computations (text wrapping, hyphenation, progress-bar
arithmetic, frame selection, mask alpha) are translated directly, and the
effectful composers are modelled as functions from an explicit environment
of external collaborators (asset loader, text measurer, encoder) to either
an error or the ordered list of canvas operations they would issue.

Text widths returned by `ctx.measureText` are modelled by an abstract
measuring function into an arbitrary linearly ordered type, covering the
floating-point widths of the source; concrete evaluations instantiate it
with integers.
-/

/-! ## Text layout engine (src/utils.js: wrapText, hyphenateWord) -/

/-- Space-join a list of words or lines, mirroring how the drawn text
concatenates: `joinSp [a, b, c] = a ++ " " ++ b ++ " " ++ c`. -/
def joinSp : List String → String
  | [] => ""
  | [a] => a
  | a :: b :: rest => a ++ " " ++ joinSp (b :: rest)

/-- The search loop of `hyphenateWord`: try prefixes of length
`i, i-1, ..., 1` (each with a trailing hyphen) until one measures within
`maxW`; if none does, return the word unmodified. -/
def hyphenAux {W : Type} [LinearOrder W] (measure : String → W) (maxW : W)
    (word : String) : ℕ → String
  | 0 => word
  | i + 1 =>
    let part := word.take (i + 1) ++ "-"
    if measure part ≤ maxW then part else hyphenAux measure maxW word i

/-- `hyphenateWord(ctx, word, maxWidth)` from src/utils.js: the longest
prefix of `word`, followed by a hyphen, whose measured width fits within
`maxWidth`; the whole word unmodified when no prefix fits. -/
def hyphenateWord {W : Type} [LinearOrder W] (measure : String → W) (word : String)
    (maxW : W) : String :=
  hyphenAux measure maxW word (word.length - 1)

/-- The greedy loop of `wrapText`: `cur` is the line under construction
(starting from `words[0]`), and each later word is tentatively appended.
If the tentative line measures under `maxW` it is kept; otherwise the
current line is flushed and the next line starts with the word itself, or
with its hyphenation when the word alone measures over `maxW`. -/
def wrapAux {W : Type} [LinearOrder W] (measure : String → W) (maxW : W) :
    String → List String → List String
  | cur, [] => [cur]
  | cur, w :: ws =>
    let testLine := cur ++ " " ++ w
    if measure testLine < maxW then
      wrapAux measure maxW testLine ws
    else if maxW < measure w then
      cur :: wrapAux measure maxW (hyphenateWord measure w maxW) ws
    else
      cur :: wrapAux measure maxW w ws

/-- Helper for `splitWords`: accumulates the current word (in reverse)
while scanning the character list, emitting a word at every space. -/
def splitWordsAux : List Char → List Char → List String
  | [], acc => [String.mk acc.reverse]
  | c :: cs, acc =>
    if c = ' ' then String.mk acc.reverse :: splitWordsAux cs []
    else splitWordsAux cs (c :: acc)

/-- The JavaScript `text.split(' ')`: split on every single space, keeping
empty pieces, always producing at least one piece. -/
def splitWords (s : String) : List String := splitWordsAux s.data []

/-- `wrapText(ctx, text, maxWidth)` from src/utils.js, as the list of
produced lines (the source returns these lines joined with newlines).
Empty input yields no lines, matching the early return of the source. -/
def wrapTextLines {W : Type} [LinearOrder W] (measure : String → W) (text : String)
    (maxW : W) : List String :=
  if text = "" then []
  else
    match splitWords text with
    | [] => []
    | w :: ws => wrapAux measure maxW w ws

/-- `wrapText` proper: the lines joined with a newline separator. -/
def wrapText {W : Type} [LinearOrder W] (measure : String → W) (text : String)
    (maxW : W) : String :=
  String.intercalate "\n" (wrapTextLines measure text maxW)

/-- The width measure used by the repository test suite for `wrapText`:
ten units per character. -/
def measureTenPerChar (s : String) : ℤ := 10 * s.length

/-! ## Rank card progress bar arithmetic (generateRankCard) -/

/-- `progressBarX = 30 + avatarSize + 20` from generateRankCard. -/
def rankProgressBarX (avatarSize : ℚ) : ℚ := 30 + avatarSize + 20

/-- `progressBarWidth = width - (30 + avatarSize + 20) - 30` from
generateRankCard. -/
def rankProgressBarWidth (width avatarSize : ℚ) : ℚ :=
  width - (30 + avatarSize + 20) - 30

/-- `currentProgress = Math.min(xp / requiredXp, 1)` from generateRankCard. -/
def rankProgress (xp requiredXp : ℚ) : ℚ := min (xp / requiredXp) 1

/-- Width of the filled progress rectangle:
`progressBarWidth * currentProgress`. -/
def rankFillWidth (width avatarSize xp requiredXp : ℚ) : ℚ :=
  rankProgressBarWidth width avatarSize * rankProgress xp requiredXp

/-- The percentage label: template of `Math.round(currentProgress * 100)`
followed by a percent sign. JavaScript `Math.round` rounds half toward
positive infinity, as does Mathlib `round`. -/
def rankPercentText (xp requiredXp : ℚ) : String :=
  toString (round (rankProgress xp requiredXp * 100)) ++ "%"

/-- X coordinate of the percentage label:
`progressBarX + progressBarWidth / 2 - textWidth / 2`. -/
def rankPercentTextX (width avatarSize textWidth : ℚ) : ℚ :=
  rankProgressBarX avatarSize + rankProgressBarWidth width avatarSize / 2 - textWidth / 2

/-! ## Option values, errors and canvas operations for the composers -/

/-- A JavaScript value supplied for a string-typed option field: either an
actual string or some non-string value. -/
inductive JsVal where
  | str (s : String)
  | nonString
deriving DecidableEq

/-- Errors surfaced by the composers: `TypeError` for validation failures
and the property access on the missing registered-font set, `Error` for
everything thrown with `new Error(...)`. -/
inductive JsError where
  | typeError (msg : String)
  | error (msg : String)
deriving DecidableEq

/-- One canvas drawing-state operation issued by a composer. The sequence
of these operations determines the serialized output bytes. -/
inductive Op where
  | fillStyle (c : String)
  | fillRect (x y w h : ℚ)
  | drawImage (what : String) (x y w h : ℚ)
  | setAlpha (a : ℚ)
  | setFilter (f : String)
  | saveCtx
  | restoreCtx
  | beginPath
  | arc (x y r : ℚ)
  | fillPath
  | setFont (f : String)
  | setShadowParams (color : String) (blur offsetX offsetY : ℚ)
  | fillText (t : String) (x y : ℚ)
  | setStroke (c : String) (lineWidth : ℚ)
  | strokeRect (x y w h : ℚ)
deriving DecidableEq

/-- The external collaborators a composer calls into: background and avatar
asset loading (with the error message on failure), the final buffer
encoding, the text measurer, and number-to-string conversions
(`toString` templates and `toLocaleString`). -/
structure RenderEnv where
  loadBackground : String → Except String Unit
  loadAvatar : String → Except String Unit
  encode : Except String Unit := .ok ()
  measure : String → ℚ
  numToString : ℚ → String
  locString : ℚ → String

/-- Substring test modelling JavaScript `String.prototype.includes`. -/
def strIncludes (s pat : String) : Bool := decide (pat.data <:+: s.data)

/-- JavaScript `String.prototype.trim`: strip leading and trailing
whitespace. -/
def jsTrim (s : String) : String :=
  String.mk (((s.data.dropWhile Char.isWhitespace).reverse.dropWhile
    Char.isWhitespace).reverse)

/-- JavaScript `String.prototype.toLowerCase` on ASCII family names. -/
def jsToLower (s : String) : String := String.mk (s.data.map Char.toLower)

/-- JavaScript `String.prototype.toUpperCase` on ASCII titles. -/
def jsToUpper (s : String) : String := String.mk (s.data.map Char.toUpper)

/-- `typeof v === 'string' && v.trim() !== ''`. -/
def validStr : JsVal → Bool
  | .str s => !(jsTrim s == "")
  | .nonString => false

/-! ## Font registration check (shared by the composers)

src/utils.js exports `_caches = { fontCache, maskCache }`; it defines no
`_registeredFontFamilies`, so that property reads as `undefined` in every
composer. -/

/-- The generic families the composers accept without consulting the
registered set. -/
def genericFontFamilies : List String := ["sans-serif", "serif", "monospace"]

/-- The `_registeredFontFamilies` property of the `_caches` export of
src/utils.js: absent (`undefined`), since the export contains only
`fontCache` and `maskCache`. -/
def registeredFontFamiliesExport : Option (List String) := none

/-- The font registration check at the top of each composer:
`if (font && !genericFontFamilies.includes(font.toLowerCase()) &&
!_caches._registeredFontFamilies.has(font)) console.warn(...)`.
Returns whether a warning was emitted, or the `TypeError` raised by
calling `.has` on `undefined` (the engine wording of that message is
modelled, not quoted). -/
def fontCheck (font : String) : Except JsError Bool :=
  if font = "" then .ok false
  else if genericFontFamilies.contains (jsToLower font) then .ok false
  else
    match registeredFontFamiliesExport with
    | none => .error (.typeError "Cannot read properties of undefined (reading has)")
    | some fams => .ok (!fams.contains font)

/-! ## Welcome composer (src/generators/welcome.js, validated variant) -/

/-- Options of `generateWelcomeImage`, with the documented defaults. A
`background` of `some ref` models passing a URL/Buffer reference. -/
structure WelcomeOptions where
  username : JsVal
  avatarURL : JsVal
  background : Option String := none
  title : String := "WELCOME"
  message : String := "Welcome to the server!"
  color : String := "#7289DA"
  textColor : String := "#FFFFFF"
  width : ℚ := 1200
  height : ℚ := 400
  avatarSize : ℚ := 200
  font : String := "sans-serif"
  shadowOpt : Bool := true
  avatarBorderColor : String := "#FFFFFF"

/-- Stage-1 validation of `generateWelcomeImage`: first failure wins, and
on success the username and avatar URL strings are available. -/
def validateWelcome (o : WelcomeOptions) : Except String (String × String) :=
  match o.username with
  | .nonString => .error "Username must be a non-empty string."
  | .str u =>
    if jsTrim u == "" then .error "Username must be a non-empty string."
    else
      match o.avatarURL with
      | .nonString => .error "Avatar URL must be a non-empty string."
      | .str a =>
        if jsTrim a == "" then .error "Avatar URL must be a non-empty string."
        else .ok (u, a)

/-- The contextual message prefix given to avatar-stage failures of the
welcome composer; the top-level handler tests for this exact text. -/
def welcomeAvatarMarker (u : String) : String :=
  "Failed to load or process avatar for " ++ u ++ " (welcome image)"

/-- The wrapper message the welcome composer's top-level handler builds for
failures that did not come from the avatar stage. -/
def welcomeWrapMsg (u m : String) : String :=
  "Failed to generate welcome image for " ++ u ++ ". Reason: " ++ m

/-- The top-level catch of `generateWelcomeImage`: re-throw unchanged when
the message contains the avatar marker, otherwise wrap it with the
username context. -/
def handleTopWelcome (u m : String) : String :=
  if strIncludes m (welcomeAvatarMarker u) then m else welcomeWrapMsg u m

/-- Background stage of the welcome composer: on a successful load, draw
the image then the dark overlay; on a load failure, or with no background
at all, fill with the solid fallback `color`. -/
def welcomeBgOps (env : RenderEnv) (bg : Option String) (color : String) (w h : ℚ) :
    List Op :=
  match bg with
  | some ref =>
    match env.loadBackground ref with
    | .ok _ =>
      [.saveCtx, .drawImage "background" 0 0 w h, .restoreCtx,
       .fillStyle "rgba(0, 0, 0, 0.5)", .setAlpha (1 / 2), .fillRect 0 0 w h,
       .setAlpha 1]
    | .error _ => [.fillStyle color, .fillRect 0 0 w h]
  | none => [.fillStyle color, .fillRect 0 0 w h]

/-- Avatar stage drawing of the welcome composer (border disc then the
circular avatar at `((width - avatarSize)/2, 80)`). -/
def welcomeAvatarOps (o : WelcomeOptions) : List Op :=
  [.beginPath,
   .arc ((o.width - o.avatarSize) / 2 + o.avatarSize / 2) (80 + o.avatarSize / 2)
     (o.avatarSize / 2 + 8),
   .fillStyle o.avatarBorderColor, .fillPath,
   .saveCtx,
   .drawImage "avatar" ((o.width - o.avatarSize) / 2) 80 o.avatarSize o.avatarSize,
   .restoreCtx]

/-- Text stage of the welcome composer: title (uppercased), username, then
the wrapped message, with the manual shadow fallbacks of the source
(`applyTextShadow` is not exported by src/utils.js, so the composer takes
the `typeof` fallback branches). -/
def welcomeTextOps (env : RenderEnv) (o : WelcomeOptions) (u : String) : List Op :=
  let titleText := jsToUpper o.title
  let msgLines := wrapTextLines env.measure o.message (o.width * (8 / 10))
  (if o.shadowOpt then [Op.setShadowParams "rgba(0, 0, 0, 0.7)" 8 0 3] else []) ++
  [.setFont ("bold 42px " ++ o.font), .fillStyle o.textColor,
   .fillText titleText (o.width / 2 - env.measure titleText / 2) (o.height - 120)] ++
  (if o.shadowOpt then [Op.setShadowParams "rgba(0, 0, 0, 0.5)" 6 0 0] else []) ++
  [.setFont ("bold 36px " ++ o.font), .fillStyle o.textColor,
   .fillText u (o.width / 2 - env.measure u / 2) (o.height - 70)] ++
  [.setShadowParams "transparent" 0 0 0,
   .setFont ("28px " ++ o.font), .fillStyle o.textColor] ++
  (msgLines.enum.map fun p =>
    Op.fillText p.2 (o.width / 2 - env.measure p.2 / 2)
      ((o.height - 120 - msgLines.length * 34 - 20) + p.1 * 34))

/-- The body of `generateWelcomeImage` inside its top-level `try`: the
avatar stage failure is wrapped with the marker message; an encoding
failure propagates as-is; success yields the full operation sequence. -/
def welcomeBody (env : RenderEnv) (o : WelcomeOptions) (u a : String) :
    Except String (List Op) :=
  match env.loadAvatar a with
  | .error r => .error (welcomeAvatarMarker u ++ ". Reason: " ++ r)
  | .ok _ =>
    match env.encode with
    | .error m => .error m
    | .ok _ =>
      .ok (welcomeBgOps env o.background o.color o.width o.height ++
           [.setFilter "none", .setAlpha 1] ++
           welcomeAvatarOps o ++
           welcomeTextOps env o u)

/-- `generateWelcomeImage(options)`: validate, run the font-registration
check, then the drawing body with the top-level error handler. -/
def generateWelcomeImage (env : RenderEnv) (o : WelcomeOptions) :
    Except JsError (List Op) :=
  match validateWelcome o with
  | .error m => .error (.typeError m)
  | .ok (u, a) =>
    match fontCheck o.font with
    | .error e => .error e
    | .ok _ =>
      match welcomeBody env o u a with
      | .error m => .error (.error (handleTopWelcome u m))
      | .ok ops => .ok ops

/-! ## Rank card composer (generateRankCard, validated variant) -/

/-- Options of `generateRankCard`. Numeric fields are `none` when the
caller passed a non-number value. -/
structure RankOptions where
  username : JsVal
  avatarURL : JsVal
  level : Option ℚ := some 1
  xp : Option ℚ := some 0
  requiredXp : Option ℚ := some 100
  rank : Option ℚ := some 1
  background : Option String := none
  color : String := "#7289DA"
  textColor : String := "#FFFFFF"
  progressColor : String := "#FFFFFF"
  width : ℚ := 800
  height : ℚ := 200
  avatarSize : ℚ := 100
  font : String := "sans-serif"
  shadowOpt : Bool := true

/-- Stage-1 validation of `generateRankCard`, in source order; on success
all validated fields are available. -/
def validateRank (o : RankOptions) :
    Except String (String × String × ℚ × ℚ × ℚ × ℚ) :=
  match o.username with
  | .nonString => .error "Username must be a non-empty string."
  | .str u =>
    if jsTrim u == "" then .error "Username must be a non-empty string."
    else
      match o.avatarURL with
      | .nonString => .error "Avatar URL must be a non-empty string."
      | .str a =>
        if jsTrim a == "" then .error "Avatar URL must be a non-empty string."
        else
          match o.level with
          | none => .error "Level must be a non-negative number."
          | some l =>
            if l < 0 then .error "Level must be a non-negative number."
            else
              match o.xp with
              | none => .error "XP must be a non-negative number."
              | some xp =>
                if xp < 0 then .error "XP must be a non-negative number."
                else
                  match o.requiredXp with
                  | none => .error "Required XP must be a positive number."
                  | some req =>
                    if req ≤ 0 then .error "Required XP must be a positive number."
                    else
                      match o.rank with
                      | none => .error "Rank must be a non-negative number."
                      | some rk =>
                        if rk < 0 then .error "Rank must be a non-negative number."
                        else .ok (u, a, l, xp, req, rk)

/-- The contextual message prefix of avatar-stage failures of the rank
composer. -/
def rankAvatarMarker (u : String) : String :=
  "Failed to load or process avatar for " ++ u ++ " (rank card)"

/-- The wrapper message of the rank composer's top-level handler. -/
def rankWrapMsg (u m : String) : String :=
  "Failed to generate rank card for " ++ u ++ ". Reason: " ++ m

/-- The top-level catch of `generateRankCard`. -/
def handleTopRank (u m : String) : String :=
  if strIncludes m (rankAvatarMarker u) then m else rankWrapMsg u m

/-- Background stage of the rank composer (draw at 0.7 alpha then the dark
overlay; solid `color` fill on failure or absence). -/
def rankBgOps (env : RenderEnv) (bg : Option String) (color : String) (w h : ℚ) :
    List Op :=
  match bg with
  | some ref =>
    match env.loadBackground ref with
    | .ok _ =>
      [.saveCtx, .setAlpha (7 / 10), .drawImage "background" 0 0 w h, .restoreCtx,
       .fillStyle "rgba(0, 0, 0, 0.5)", .fillRect 0 0 w h]
    | .error _ => [.fillStyle color, .fillRect 0 0 w h]
  | none => [.fillStyle color, .fillRect 0 0 w h]

/-- Avatar stage drawing of the rank composer. -/
def rankAvatarOps (o : RankOptions) : List Op :=
  [.beginPath,
   .arc (30 + o.avatarSize / 2) ((o.height - o.avatarSize) / 2 + o.avatarSize / 2)
     (o.avatarSize / 2 + 3),
   .fillStyle "#FFFFFF", .fillPath,
   .drawImage "avatar" 30 ((o.height - o.avatarSize) / 2) o.avatarSize o.avatarSize]

/-- Text and decoration stage of the rank composer: username, rank, level,
XP, then the progress bar (track, fill scaled by the progress ratio,
outline) and the centered percentage label with shadow disabled. -/
def rankTextOps (env : RenderEnv) (o : RankOptions) (u : String)
    (l xp req rk : ℚ) : List Op :=
  (if o.shadowOpt then [Op.setShadowParams "rgba(0, 0, 0, 0.5)" 5 2 2] else []) ++
  [.setFont ("bold 25px " ++ o.font), .fillStyle o.textColor,
   .fillText u (30 + o.avatarSize + 20) 50,
   .setFont ("20px " ++ o.font),
   .fillText ("#" ++ env.numToString rk) (30 + o.avatarSize + 20) 80,
   .setFont ("bold 20px " ++ o.font),
   .fillText ("Level: " ++ env.numToString l) (o.width - 150) 50,
   .setFont ("20px " ++ o.font),
   .fillText (env.locString xp ++ " / " ++ env.locString req ++ " XP") (o.width - 150) 80,
   .fillStyle "rgba(0, 0, 0, 0.5)",
   .fillRect (rankProgressBarX o.avatarSize) (o.height - 50)
     (rankProgressBarWidth o.width o.avatarSize) 20,
   .fillStyle o.progressColor,
   .fillRect (rankProgressBarX o.avatarSize) (o.height - 50)
     (rankFillWidth o.width o.avatarSize xp req) 20,
   .setStroke o.textColor 2,
   .strokeRect (rankProgressBarX o.avatarSize) (o.height - 50)
     (rankProgressBarWidth o.width o.avatarSize) 20,
   .setShadowParams "transparent" 0 0 0,
   .setFont ("bold 16px " ++ o.font), .fillStyle o.textColor,
   .fillText (rankPercentText xp req)
     (rankPercentTextX o.width o.avatarSize (env.measure (rankPercentText xp req)))
     (o.height - 50 + 16)]

/-- `generateRankCard(options)`: validate, font check, then the drawing
body with the top-level error handler. -/
def generateRankCard (env : RenderEnv) (o : RankOptions) :
    Except JsError (List Op) :=
  match validateRank o with
  | .error m => .error (.typeError m)
  | .ok (u, a, l, xp, req, rk) =>
    match fontCheck o.font with
    | .error e => .error e
    | .ok _ =>
      match env.loadAvatar a with
      | .error r => .error (.error (handleTopRank u (rankAvatarMarker u ++ ". Reason: " ++ r)))
      | .ok _ =>
        match env.encode with
        | .error m => .error (.error (handleTopRank u m))
        | .ok _ =>
          .ok (rankBgOps env o.background o.color o.width o.height ++
               rankAvatarOps o ++
               rankTextOps env o u l xp req rk)

/-! ## Animated composer frame selection (generateAnimatedWelcome) -/

/-- Iteration count of the modulo-cycling animated variants:
`for (let i = 0; i < frames; i++)` runs exactly the configured number of
iterations. -/
def composedFrameCount (frames : ℕ) : ℕ := frames

/-- Iteration count of the sharp-based animated variant:
`for (let i = 0; i < Math.min(60, pages); i++)`. -/
def animatedFrameCount60 (pages : ℕ) : ℕ := min 60 pages

/-- The background frame index used for each composed frame:
`bgFrames[i % bgFrames.length]` over the whole loop. -/
def animatedFrameIndices (frames avail : ℕ) : List ℕ :=
  (List.range (composedFrameCount frames)).map (fun i => i % avail)

/-! ## Asset loader (src/utils.js: loadImageBuffer) -/

/-- JavaScript `String.prototype.startsWith`. -/
def jsStartsWith (s p : String) : Bool := decide (p.data <+: s.data)

/-- A source accepted by `loadImageBuffer`: a raw byte buffer, a string
(URL or local path), or any other value. -/
inductive ImageSource where
  | buffer (b : List ℕ)
  | str (s : String)
  | other

/-- The collaborators of the asset loader, over an abstract decoded-image
type: `Jimp.read` on bytes and on files, the HTTP fetch, and PNG
re-encoding. -/
structure AssetEnv (Image : Type) where
  jimpDecode : List ℕ → Except String Image
  httpFetch : String → Except String (List ℕ)
  jimpReadFile : String → Except String Image
  pngEncode : Image → List ℕ

/-- The shape of the `fs` module as the local-path branch of
`loadImageBuffer` uses it. -/
structure FsModule where
  existsSync : String → Bool

/-- The `fs` binding in the module scope of src/src/utils.js: absent,
since the file never requires `fs` (its requires are canvas, jimp, axios,
path and tmp), so referencing `fs` throws a `ReferenceError`. -/
def fsBinding : Option FsModule := none

/-- `loadImageBuffer(source)` from src/utils.js: buffers are validated by
a decode and returned as-is; `http` strings are fetched, validated and the
fetched bytes returned as-is; other strings take the local-path branch,
whose first step `fs.existsSync(source)` references the absent `fs`
binding — the resulting `ReferenceError` is caught by the surrounding
`catch` and rewrapped, so the read-and-re-encode-to-PNG tail of that
branch is reachable only if the binding were present; anything else is
rejected. -/
def loadImageBuffer {Image : Type} (env : AssetEnv Image) :
    ImageSource → Except String (List ℕ)
  | .buffer b =>
    match env.jimpDecode b with
    | .ok _ => .ok b
    | .error e => .error ("Failed to load image: " ++ e)
  | .str s =>
    if jsStartsWith s "http" then
      match env.httpFetch s with
      | .ok bytes =>
        match env.jimpDecode bytes with
        | .ok _ => .ok bytes
        | .error e => .error ("Failed to load image: " ++ e)
      | .error e => .error ("Failed to load image: " ++ e)
    else
      match fsBinding with
      | none => .error "Failed to load image: fs is not defined"
      | some fsMod =>
        if fsMod.existsSync s then
          match env.jimpReadFile s with
          | .ok img => .ok (env.pngEncode img)
          | .error e => .error ("Failed to load image: " ++ e)
        else .error ("Failed to load image: File not found: " ++ s)
  | .other => .error "Failed to load image: Invalid image source type"

/-- A concrete asset environment over a trivial image type. -/
def unitAssetEnv : AssetEnv Unit where
  jimpDecode := fun _ => .ok ()
  httpFetch := fun _ => .ok [7, 7]
  jimpReadFile := fun _ => .ok ()
  pngEncode := fun _ => [1, 2, 3]

/-! ## Circular mask engine (src/utils.js: cropToCircle and maskCache) -/

/-- Distance of pixel `(x, y)` from the mask center (`radius = center =
size / 2`). -/
noncomputable def pixelDist (size x y : ℕ) : ℝ :=
  Real.sqrt (((x : ℝ) - (size : ℝ) / 2) ^ 2 + ((y : ℝ) - (size : ℝ) / 2) ^ 2)

/-- The mask alpha of pixel `(x, y)`:
`Math.round(Math.max(0, 255 - (Math.max(0, distance - radius + 0.5) * 255)))`. -/
noncomputable def maskAlpha (size x y : ℕ) : ℤ :=
  round (max 0 (255 - max 0 (pixelDist size x y - (size : ℝ) / 2 + 1 / 2) * 255))

/-- The alpha formula as the specification states it:
`255 - clamp(distanceFromCenter - radius + 0.5, 0, 255)`. -/
noncomputable def specMaskAlpha (size x y : ℕ) : ℝ :=
  255 - min (max (pixelDist size x y - (size : ℝ) / 2 + 1 / 2) 0) 255

/-- The mask cache discipline of `cropToCircle`: look the diameter up in
the cache; on a miss, compute the mask and store it under that key. -/
def getOrComputeMask {M : Type} (compute : ℕ → M) (cache : List (ℕ × M))
    (size : ℕ) : M × List (ℕ × M) :=
  match cache.lookup size with
  | some m => (m, cache)
  | none => (compute size, (size, compute size) :: cache)

/-! ## Concrete environments used to instantiate the theorems -/

/-- An environment in which every collaborator succeeds. -/
def happyEnv : RenderEnv where
  loadBackground := fun _ => .ok ()
  loadAvatar := fun _ => .ok ()
  encode := .ok ()
  measure := fun s => s.length
  numToString := fun _ => "0"
  locString := fun _ => "0"

/-- Valid welcome options for the user Ada. -/
def adaOptions : WelcomeOptions :=
  { username := .str "Ada", avatarURL := .str "http://cdn/avatar.png" }

/-- A non-avatar-stage failure message that happens to contain the avatar
marker text for Ada. -/
def cexMsg : String := welcomeAvatarMarker "Ada" ++ " mentioned by the encoder"

/-- An environment whose encoding stage fails with `cexMsg`. -/
def cexEnv : RenderEnv where
  loadBackground := fun _ => .ok ()
  loadAvatar := fun _ => .ok ()
  encode := .error cexMsg
  measure := fun s => s.length
  numToString := fun _ => "0"
  locString := fun _ => "0"

/-- An environment whose avatar load fails. -/
def avatarFailEnv : RenderEnv where
  loadBackground := fun _ => .ok ()
  loadAvatar := fun _ => .error "boom"
  encode := .ok ()
  measure := fun s => s.length
  numToString := fun _ => "0"
  locString := fun _ => "0"

/-- An environment whose background load fails. -/
def bgFailEnv : RenderEnv where
  loadBackground := fun _ => .error "404"
  loadAvatar := fun _ => .ok ()
  encode := .ok ()
  measure := fun s => s.length
  numToString := fun _ => "0"
  locString := fun _ => "0"

/-! ## Lemmas about the text layout engine -/

theorem joinSp_cons (a : String) (l : List String) (h : l ≠ []) :
    joinSp (a :: l) = a ++ " " ++ joinSp l := by
  cases l with
  | nil => exact absurd rfl h
  | cons b t => rfl

theorem joinSp_merge (a b : String) (l : List String) :
    joinSp ((a ++ " " ++ b) :: l) = joinSp (a :: b :: l) := by
  cases l with
  | nil => rfl
  | cons c t => simp [joinSp, String.append_assoc]

theorem wrapAux_ne_nil {W : Type} [LinearOrder W] (measure : String → W) (maxW : W)
    (ws : List String) (cur : String) : wrapAux measure maxW cur ws ≠ [] := by
  induction ws generalizing cur with
  | nil => simp [wrapAux]
  | cons w ws ih =>
    simp only [wrapAux]
    split
    · exact ih _
    · split <;> simp

theorem wrapAux_joinSp {W : Type} [LinearOrder W] (measure : String → W) (maxW : W)
    (ws : List String) (cur : String) (h : ∀ w ∈ ws, measure w ≤ maxW) :
    joinSp (wrapAux measure maxW cur ws) = joinSp (cur :: ws) := by
  induction ws generalizing cur with
  | nil => rfl
  | cons w ws ih =>
    have hw : measure w ≤ maxW := h w (List.mem_cons_self w ws)
    have hws : ∀ x ∈ ws, measure x ≤ maxW := fun x hx => h x (List.mem_cons_of_mem w hx)
    simp only [wrapAux]
    split
    · rw [ih _ hws, joinSp_merge]
    · rw [if_neg (not_lt.mpr hw)]
      rw [joinSp_cons cur _ (wrapAux_ne_nil measure maxW ws w), ih _ hws,
        joinSp_cons cur _ (by simp)]

theorem wrapAux_width {W : Type} [LinearOrder W] (measure : String → W) (maxW : W)
    (ws : List String) (cur : String) (hcur : measure cur ≤ maxW)
    (h : ∀ w ∈ ws, measure w ≤ maxW) :
    ∀ line ∈ wrapAux measure maxW cur ws, measure line ≤ maxW := by
  induction ws generalizing cur with
  | nil => simpa [wrapAux] using hcur
  | cons w ws ih =>
    have hw : measure w ≤ maxW := h w (List.mem_cons_self w ws)
    have hws : ∀ x ∈ ws, measure x ≤ maxW := fun x hx => h x (List.mem_cons_of_mem w hx)
    simp only [wrapAux]
    split
    case isTrue hlt => exact ih _ hlt.le hws
    case isFalse hge =>
      rw [if_neg (not_lt.mpr hw)]
      intro line hline
      rcases List.mem_cons.mp hline with hl | hl
      · exact hl ▸ hcur
      · exact ih _ hw hws line hl

/-- C1: for every non-empty `text` and every `maxWidth` at least the
measured width of the widest single word of `text`, `wrapText` returns
lines whose measured widths are each within `maxWidth`, and space-joining
the words of all returned lines reconstructs exactly the original word
sequence of `text`. -/
theorem wrapText_sound {W : Type} [LinearOrder W] (measure : String → W)
    (text : String) (maxW : W) (hne : text ≠ "")
    (hw : ∀ w ∈ splitWords text, measure w ≤ maxW) :
    (∀ line ∈ wrapTextLines measure text maxW, measure line ≤ maxW) ∧
    joinSp (wrapTextLines measure text maxW) = joinSp (splitWords text) := by
  unfold wrapTextLines
  rw [if_neg hne]
  cases h : splitWords text with
  | nil => simp
  | cons w ws =>
    rw [h] at hw
    refine ⟨?_, ?_⟩
    · exact wrapAux_width measure maxW ws w (hw w (List.mem_cons_self w ws))
        (fun x hx => hw x (List.mem_cons_of_mem w hx))
    · exact wrapAux_joinSp measure maxW ws w
        (fun x hx => hw x (List.mem_cons_of_mem w hx))

theorem wrapText_sound_witness :
    ("hello wide world" ≠ "" ∧
      ∀ w ∈ splitWords "hello wide world", measureTenPerChar w ≤ 120) ∧
    joinSp (wrapTextLines measureTenPerChar "hello wide world" 120) =
      joinSp (splitWords "hello wide world") :=
  ⟨⟨by decide, by decide⟩,
    (wrapText_sound measureTenPerChar "hello wide world" 120 (by decide) (by decide)).2⟩

/-- C7: contrary to the claim (and to the expectations recorded in the
repository test suite), a word whose measured width exceeds `maxWidth` is
not always hyphenated: a first or solitary overlong word is returned
whole, and when hyphenation does fire for a later word, only the chosen
prefix survives — the remainder of the word never starts a following line.
With the test suite measure (ten units per character) the solitary
overlong word comes back as a single unhyphenated line, and for
"go Supercalifragilisticexpialidocious" the remainder
"fragilisticexpialidocious" is absent from the output. -/
theorem wrapText_overlong_word_unhyphenated :
    100 < measureTenPerChar "Supercalifragilisticexpialidocious" ∧
    wrapTextLines measureTenPerChar "Supercalifragilisticexpialidocious" 100 =
      ["Supercalifragilisticexpialidocious"] ∧
    wrapTextLines measureTenPerChar "go Supercalifragilisticexpialidocious" 100 =
      ["go", "Supercali-"] :=
  ⟨by decide, by decide, by decide⟩

/-! ## Rank card progress bar -/

/-- C2: under the validation constraints (`xp ≥ 0`, `requiredXp > 0`), the
fill rectangle width equals `clamp(xp/requiredXp, 0, 1) × barWidth`, the
percentage label is centered on the bar, and the `xp = 1250`,
`requiredXp = 2000` instance yields a fill of `0.625 × barWidth` with
label text `"63%"`. -/
theorem rank_progress_correct (w a xp req : ℚ) (hxp : 0 ≤ xp) (hreq : 0 < req) :
    rankFillWidth w a xp req = max 0 (min (xp / req) 1) * rankProgressBarWidth w a ∧
    (∀ tw : ℚ, rankPercentTextX w a tw + tw / 2 =
      rankProgressBarX a + rankProgressBarWidth w a / 2) ∧
    rankFillWidth w a 1250 2000 = 0.625 * rankProgressBarWidth w a ∧
    rankPercentText 1250 2000 = "63%" := by
  refine ⟨?_, fun tw => by unfold rankPercentTextX; ring, ?_, ?_⟩
  · unfold rankFillWidth rankProgress
    rw [max_eq_right (le_min (div_nonneg hxp hreq.le) zero_le_one), mul_comm]
  · unfold rankFillWidth rankProgress
    rw [show min ((1250 : ℚ) / 2000) 1 = 0.625 by norm_num [min_def]]
    ring
  · unfold rankPercentText rankProgress
    rw [show round ((min ((1250 : ℚ) / 2000) 1) * 100) = 63 by
      norm_num [min_def, round_eq]]
    rfl

theorem rank_progress_correct_witness :
    ((0 : ℚ) ≤ 1250 ∧ (0 : ℚ) < 2000) ∧ rankPercentText 1250 2000 = "63%" :=
  ⟨⟨by norm_num, by norm_num⟩,
    (rank_progress_correct 800 100 1250 2000 (by norm_num) (by norm_num)).2.2.2⟩


/-! ## Substring and validation lemmas -/

theorem strIncludes_of_infix {s m : String} (h : m.data <:+: s.data) :
    strIncludes s m = true := by
  simp [strIncludes, h]

theorem strIncludes_left (p q : String) : strIncludes (p ++ q) p = true :=
  strIncludes_of_infix (by rw [String.data_append]; exact (List.prefix_append _ _).isInfix)

theorem strIncludes_right (p q : String) : strIncludes (p ++ q) q = true :=
  strIncludes_of_infix (by rw [String.data_append]; exact (List.suffix_append _ _).isInfix)

theorem strIncludes_mid (x m y : String) : strIncludes (x ++ m ++ y) m = true :=
  strIncludes_of_infix (by
    rw [String.data_append, String.data_append]
    exact List.infix_append _ _ _)

theorem validateWelcome_username_err (o : WelcomeOptions)
    (h : validStr o.username = false) :
    validateWelcome o = .error "Username must be a non-empty string." := by
  unfold validateWelcome
  cases hu : o.username with
  | nonString => rfl
  | str s =>
    rw [hu] at h
    simp only [validStr, Bool.not_eq_false', beq_iff_eq] at h
    simp [h]

theorem validateWelcome_avatar_err (o : WelcomeOptions)
    (h1 : validStr o.username = true) (h2 : validStr o.avatarURL = false) :
    validateWelcome o = .error "Avatar URL must be a non-empty string." := by
  unfold validateWelcome
  cases hu : o.username with
  | nonString => rw [hu] at h1; simp [validStr] at h1
  | str u =>
    rw [hu] at h1
    simp only [validStr, Bool.not_eq_true', beq_eq_false_iff_ne, ne_eq] at h1
    cases ha : o.avatarURL with
    | nonString => simp [h1, ha]
    | str a =>
      rw [ha] at h2
      simp only [validStr, Bool.not_eq_false', beq_iff_eq] at h2
      simp [h1, h2, ha]

theorem validateRank_username_err (o : RankOptions)
    (h : validStr o.username = false) :
    validateRank o = .error "Username must be a non-empty string." := by
  unfold validateRank
  cases hu : o.username with
  | nonString => rfl
  | str s =>
    rw [hu] at h
    simp only [validStr, Bool.not_eq_false', beq_iff_eq] at h
    simp [h]

theorem validateRank_avatar_err (o : RankOptions)
    (h1 : validStr o.username = true) (h2 : validStr o.avatarURL = false) :
    validateRank o = .error "Avatar URL must be a non-empty string." := by
  unfold validateRank
  cases hu : o.username with
  | nonString => rw [hu] at h1; simp [validStr] at h1
  | str u =>
    rw [hu] at h1
    simp only [validStr, Bool.not_eq_true', beq_eq_false_iff_ne, ne_eq] at h1
    cases ha : o.avatarURL with
    | nonString => simp [h1, ha]
    | str a =>
      rw [ha] at h2
      simp only [validStr, Bool.not_eq_false', beq_iff_eq] at h2
      simp [h1, h2, ha]

/-- C3: an options object whose username (or avatar URL) is empty or not a
string makes both composers reject with the `TypeError` naming the
offending field; the result is the same for every environment, so no
asset fetch or drawing operation can have influenced it, and the error
carries no operation list — zero partial output. -/
theorem validation_before_effects (o : WelcomeOptions) (ro : RankOptions) :
    (validStr o.username = false → ∀ env,
      generateWelcomeImage env o =
        .error (.typeError "Username must be a non-empty string.")) ∧
    (validStr o.username = true → validStr o.avatarURL = false → ∀ env,
      generateWelcomeImage env o =
        .error (.typeError "Avatar URL must be a non-empty string.")) ∧
    (validStr ro.username = false → ∀ env,
      generateRankCard env ro =
        .error (.typeError "Username must be a non-empty string.")) ∧
    (validStr ro.username = true → validStr ro.avatarURL = false → ∀ env,
      generateRankCard env ro =
        .error (.typeError "Avatar URL must be a non-empty string.")) := by
  refine ⟨fun h env => ?_, fun h1 h2 env => ?_, fun h env => ?_, fun h1 h2 env => ?_⟩
  · simp [generateWelcomeImage, validateWelcome_username_err o h]
  · simp [generateWelcomeImage, validateWelcome_avatar_err o h1 h2]
  · simp [generateRankCard, validateRank_username_err ro h]
  · simp [generateRankCard, validateRank_avatar_err ro h1 h2]

theorem validation_before_effects_witness :
    validStr (JsVal.str " ") = false ∧
    generateWelcomeImage happyEnv { username := .str " ", avatarURL := .str "http://a" } =
      .error (.typeError "Username must be a non-empty string.") :=
  ⟨by decide,
    (validation_before_effects { username := .str " ", avatarURL := .str "http://a" }
      { username := .str "x", avatarURL := .str "y" }).1 (by decide) happyEnv⟩

/-! ## Welcome composer fatal-error handling -/

theorem handleTopWelcome_avatar (u r : String) :
    handleTopWelcome u (welcomeAvatarMarker u ++ ". Reason: " ++ r) =
      welcomeAvatarMarker u ++ ". Reason: " ++ r := by
  unfold handleTopWelcome
  rw [if_pos]
  rw [String.append_assoc]
  exact strIncludes_left _ _

theorem welcomeAvatarMsg_names_user (u r : String) :
    strIncludes (welcomeAvatarMarker u ++ ". Reason: " ++ r) u = true := by
  have h := strIncludes_mid "Failed to load or process avatar for " u
    (" (welcome image). Reason: " ++ r)
  rw [show "Failed to load or process avatar for " ++ u ++
      (" (welcome image). Reason: " ++ r) =
      welcomeAvatarMarker u ++ ". Reason: " ++ r by
    simp [welcomeAvatarMarker, String.append_assoc]] at h
  exact h

/-- C4 (amended): an avatar-stage failure rejects with the contextual
message naming the subject user, and the top-level handler passes any
error whose message contains the avatar marker through unchanged while
wrapping every other failure with the original message and the username —
the dispatch is on message content, not on the failing stage. -/
theorem welcome_fatal_error_contexts (env : RenderEnv) (o : WelcomeOptions)
    (u a : String) (b : Bool)
    (hv : validateWelcome o = .ok (u, a)) (hf : fontCheck o.font = .ok b) :
    (∀ r, env.loadAvatar a = .error r →
      generateWelcomeImage env o =
        .error (.error (welcomeAvatarMarker u ++ ". Reason: " ++ r)) ∧
      strIncludes (welcomeAvatarMarker u ++ ". Reason: " ++ r) u = true) ∧
    (∀ m, env.loadAvatar a = .ok () → env.encode = .error m →
      strIncludes m (welcomeAvatarMarker u) = false →
      generateWelcomeImage env o = .error (.error (welcomeWrapMsg u m)) ∧
      strIncludes (welcomeWrapMsg u m) u = true ∧
      strIncludes (welcomeWrapMsg u m) m = true) ∧
    (∀ m, env.loadAvatar a = .ok () → env.encode = .error m →
      strIncludes m (welcomeAvatarMarker u) = true →
      generateWelcomeImage env o = .error (.error m)) := by
  refine ⟨fun r hr => ⟨?_, welcomeAvatarMsg_names_user u r⟩,
    fun m ha he hn => ⟨?_, ?_, ?_⟩, fun m ha he hy => ?_⟩
  · simp [generateWelcomeImage, hv, hf, welcomeBody, hr, handleTopWelcome_avatar]
  · simp [generateWelcomeImage, hv, hf, welcomeBody, ha, he, handleTopWelcome, hn]
  · have h := strIncludes_mid "Failed to generate welcome image for " u
      (". Reason: " ++ m)
    rw [show "Failed to generate welcome image for " ++ u ++ (". Reason: " ++ m) =
        welcomeWrapMsg u m by simp [welcomeWrapMsg, String.append_assoc]] at h
    exact h
  · exact strIncludes_right _ _
  · simp [generateWelcomeImage, hv, hf, welcomeBody, ha, he, handleTopWelcome, hy]

theorem welcome_fatal_error_contexts_witness :
    (validateWelcome adaOptions = .ok ("Ada", "http://cdn/avatar.png") ∧
      fontCheck adaOptions.font = .ok false ∧
      avatarFailEnv.loadAvatar "http://cdn/avatar.png" = .error "boom") ∧
    generateWelcomeImage avatarFailEnv adaOptions =
      .error (.error (welcomeAvatarMarker "Ada" ++ ". Reason: " ++ "boom")) :=
  ⟨⟨rfl, rfl, rfl⟩,
    ((welcome_fatal_error_contexts avatarFailEnv adaOptions "Ada"
      "http://cdn/avatar.png" false rfl rfl).1 "boom" rfl).1⟩

/-- C4, counterexample to the claim as stated: a failure that did not come
from the avatar stage (here the encoding stage) whose message happens to
contain the avatar marker text is re-thrown unchanged by the top-level
handler instead of being re-thrown as the new wrapping error the claim
requires for every non-avatar failure. -/
theorem welcome_fatal_error_contexts_cex :
    generateWelcomeImage cexEnv adaOptions = .error (.error cexMsg) ∧
    cexMsg ≠ welcomeWrapMsg "Ada" cexMsg := by
  constructor
  · have hinc : strIncludes cexMsg (welcomeAvatarMarker "Ada") = true := by
      unfold cexMsg
      exact strIncludes_left _ _
    simp [generateWelcomeImage, cexEnv, adaOptions, welcomeBody,
      handleTopWelcome, hinc, validateWelcome, fontCheck, jsTrim, jsToLower,
      genericFontFamilies, registeredFontFamiliesExport]
  · decide

/-! ## Background fallback equivalence -/

/-- C5: with the same options and the same `color`, a background reference
whose load fails produces exactly the same composer result (hence the same
output bytes) as passing no background at all; in particular the failure
never reaches the caller. -/
theorem background_fallback_equiv (env : RenderEnv) (o : WelcomeOptions)
    (ref e : String) (hbg : env.loadBackground ref = .error e) :
    generateWelcomeImage env { o with background := some ref } =
      generateWelcomeImage env { o with background := none } := by
  have hbgops : welcomeBgOps env (some ref) o.color o.width o.height =
      welcomeBgOps env none o.color o.width o.height := by
    simp [welcomeBgOps, hbg]
  unfold generateWelcomeImage
  have hv : validateWelcome { o with background := some ref } =
      validateWelcome { o with background := none } := rfl
  rw [hv]
  cases hval : validateWelcome { o with background := none } with
  | error m => rfl
  | ok p =>
    obtain ⟨u, a⟩ := p
    cases hfc : fontCheck o.font with
    | error e2 => rfl
    | ok b =>
      have hb : welcomeBody env { o with background := some ref } u a =
          welcomeBody env { o with background := none } u a := by
        unfold welcomeBody
        cases env.loadAvatar a with
        | error r => rfl
        | ok _ =>
          cases env.encode with
          | error m => rfl
          | ok _ =>
            simp only [hbgops]
            rfl
      simp only [hb]

theorem background_fallback_equiv_witness :
    bgFailEnv.loadBackground "http://bg.png" = .error "404" ∧
    generateWelcomeImage bgFailEnv { adaOptions with background := some "http://bg.png" } =
      generateWelcomeImage bgFailEnv { adaOptions with background := none } :=
  ⟨rfl, background_fallback_equiv bgFailEnv adaOptions "http://bg.png" "404" rfl⟩

/-! ## Animated composer frame selection -/

/-- C8 (amended): the i-th composed frame uses background index
`i % availableFrames`; the modulo-cycling variant iterates exactly
`configuredFrames` times (not `min(configuredFrames, availableFrames)`),
the sharp-based variant `min(60, pages)` times; with `frames = 15` and 4
available frames the background indices are
`[0,1,2,3,0,1,2,3,0,1,2,3,0,1,2]`. -/
theorem animated_frame_selection :
    (∀ frames avail : ℕ,
      (animatedFrameIndices frames avail).length = composedFrameCount frames) ∧
    (∀ frames avail i : ℕ, i < frames →
      (animatedFrameIndices frames avail).get? i = some (i % avail)) ∧
    animatedFrameCount60 4 = 4 ∧ animatedFrameCount60 100 = 60 ∧
    animatedFrameIndices 15 4 = [0, 1, 2, 3, 0, 1, 2, 3, 0, 1, 2, 3, 0, 1, 2] := by
  refine ⟨fun frames avail => by
      simp [animatedFrameIndices, composedFrameCount],
    fun frames avail i hi => ?_, by decide, by decide, by decide⟩
  simp [animatedFrameIndices, composedFrameCount, List.getElem?_map,
    List.getElem?_range hi]

theorem animated_frame_selection_witness :
    5 < 15 ∧ (animatedFrameIndices 15 4).get? 5 = some 1 :=
  ⟨by decide, by simpa using animated_frame_selection.2.1 15 4 5 (by decide)⟩

/-- C8, counterexample to the claim as stated: with `frames = 15` and 4
available source frames — the very instance the claim spells out — the
loop composes 15 frames, so its iteration count is not bounded by
`min(configuredFrames, availableSourceFrames) = 4`. -/
theorem animated_count_exceeds_claimed_bound :
    (animatedFrameIndices 15 4).length = 15 ∧
    ¬ (animatedFrameIndices 15 4).length ≤ min 15 4 :=
  ⟨by decide, by decide⟩

/-! ## Font registration check -/

/-- C9: the composers never warn (and never throw) for the generic
families sans-serif, serif and monospace, case-insensitively; but for any
other family the check does not warn-and-proceed as documented — it
throws a `TypeError`, because the `_caches` export of src/utils.js
contains no `_registeredFontFamilies`, and the welcome composer
propagates that error to its caller before any drawing. -/
theorem fontCheck_behavior :
    fontCheck "sans-serif" = .ok false ∧
    fontCheck "Serif" = .ok false ∧
    fontCheck "MONOSPACE" = .ok false ∧
    fontCheck "Poppins" =
      .error (.typeError "Cannot read properties of undefined (reading has)") ∧
    generateWelcomeImage happyEnv { adaOptions with font := "Poppins" } =
      .error (.typeError "Cannot read properties of undefined (reading has)") :=
  ⟨rfl, rfl, rfl, rfl, rfl⟩

/-! ## Asset loader -/

/-- C10: a buffer source that decodes as a valid image is returned exactly
as given (byte-identical, no re-encoding), and an `http` string source
likewise returns the fetched bytes unchanged; but no local-path string
source is ever re-encoded to PNG and returned — because src/src/utils.js
never requires `fs`, every non-http string source throws a
`ReferenceError` at `fs.existsSync` which the `catch` rewraps, so the
local-path branch always fails. -/
theorem loadImageBuffer_behavior {Image : Type} (env : AssetEnv Image) :
    (∀ b img, env.jimpDecode b = .ok img →
      loadImageBuffer env (.buffer b) = .ok b) ∧
    (∀ s bytes img, jsStartsWith s "http" = true → env.httpFetch s = .ok bytes →
      env.jimpDecode bytes = .ok img → loadImageBuffer env (.str s) = .ok bytes) ∧
    (∀ s, jsStartsWith s "http" = false →
      loadImageBuffer env (.str s) =
        .error "Failed to load image: fs is not defined") := by
  refine ⟨fun b img h => ?_, fun s bytes img h1 h2 h3 => ?_, fun s h1 => ?_⟩
  · simp [loadImageBuffer, h]
  · simp [loadImageBuffer, h1, h2, h3]
  · simp [loadImageBuffer, h1, fsBinding]

theorem loadImageBuffer_behavior_witness :
    (unitAssetEnv.jimpDecode [5, 6] = .ok () ∧
      jsStartsWith "./assets/bg.png" "http" = false) ∧
    loadImageBuffer unitAssetEnv (.buffer [5, 6]) = .ok [5, 6] ∧
    loadImageBuffer unitAssetEnv (.str "./assets/bg.png") =
      .error "Failed to load image: fs is not defined" :=
  ⟨⟨rfl, by decide⟩,
    (loadImageBuffer_behavior unitAssetEnv).1 [5, 6] () rfl,
    (loadImageBuffer_behavior unitAssetEnv).2.2 "./assets/bg.png" (by decide)⟩

/-! ## Circular mask engine -/

theorem pixelDist_center_200 : pixelDist 200 100 100 = 0 := by
  unfold pixelDist
  rw [show ((((100:ℕ):ℝ) - ((200:ℕ):ℝ) / 2) ^ 2 +
      (((100:ℕ):ℝ) - ((200:ℕ):ℝ) / 2) ^ 2) = 0 by push_cast; ring_nf]
  exact Real.sqrt_zero

theorem pixelDist_edge_200 : pixelDist 200 184 163 = 105 := by
  unfold pixelDist
  rw [show ((((184:ℕ):ℝ) - ((200:ℕ):ℝ) / 2) ^ 2 +
      (((163:ℕ):ℝ) - ((200:ℕ):ℝ) / 2) ^ 2) = 105 ^ 2 by push_cast; ring_nf]
  exact Real.sqrt_sq (by norm_num)

theorem maskAlpha_edge_zero (size x y : ℕ)
    (h : (size : ℝ) / 2 + 1 / 2 ≤ pixelDist size x y) : maskAlpha size x y = 0 := by
  unfold maskAlpha
  rw [max_eq_right (by linarith : (0:ℝ) ≤ pixelDist size x y - (size : ℝ) / 2 + 1 / 2)]
  rw [max_eq_left (by nlinarith :
    (255:ℝ) - (pixelDist size x y - (size : ℝ) / 2 + 1 / 2) * 255 ≤ 0)]
  exact round_zero

theorem maskAlpha_edge_full (size x y : ℕ)
    (h : pixelDist size x y ≤ (size : ℝ) / 2 - 1 / 2) : maskAlpha size x y = 255 := by
  unfold maskAlpha
  rw [max_eq_left (by linarith : pixelDist size x y - (size : ℝ) / 2 + 1 / 2 ≤ (0:ℝ))]
  norm_num

theorem getOrComputeMask_cached {M : Type} (compute : ℕ → M)
    (cache : List (ℕ × M)) (size : ℕ) :
    getOrComputeMask compute (getOrComputeMask compute cache size).2 size =
      ((getOrComputeMask compute cache size).1,
       (getOrComputeMask compute cache size).2) := by
  unfold getOrComputeMask
  cases h : cache.lookup size with
  | some m => simp [h]
  | none => simp [h, List.lookup]

/-- C6 (amended): the mask alpha is
`round(max(0, 255 - 255 * max(0, distance - radius + 0.5)))` — fully
opaque at least half a pixel inside the boundary and fully transparent
from half a pixel outside (a soft edge confined to about one pixel) — and
the mask is cached keyed by diameter, a second request for the same
diameter returning the cached mask with the cache unchanged. -/
theorem mask_edge_and_cache :
    (∀ size x y : ℕ,
      (pixelDist size x y ≤ (size : ℝ) / 2 - 1 / 2 → maskAlpha size x y = 255) ∧
      ((size : ℝ) / 2 + 1 / 2 ≤ pixelDist size x y → maskAlpha size x y = 0)) ∧
    (∀ (M : Type) (compute : ℕ → M) (cache : List (ℕ × M)) (size : ℕ),
      getOrComputeMask compute (getOrComputeMask compute cache size).2 size =
        ((getOrComputeMask compute cache size).1,
         (getOrComputeMask compute cache size).2)) :=
  ⟨fun size x y => ⟨maskAlpha_edge_full size x y, maskAlpha_edge_zero size x y⟩,
    fun _ compute cache size => getOrComputeMask_cached compute cache size⟩

theorem mask_edge_and_cache_witness :
    (((200:ℕ) : ℝ) / 2 + 1 / 2 ≤ pixelDist 200 184 163 ∧
      maskAlpha 200 184 163 = 0) ∧
    getOrComputeMask (fun n => n) ((getOrComputeMask (fun n => n)
        ([] : List (ℕ × ℕ)) 64).2) 64 =
      ((getOrComputeMask (fun n => n) ([] : List (ℕ × ℕ)) 64).1,
       (getOrComputeMask (fun n => n) ([] : List (ℕ × ℕ)) 64).2) := by
  have h : (((200:ℕ)) : ℝ) / 2 + 1 / 2 ≤ pixelDist 200 184 163 := by
    rw [pixelDist_edge_200]; push_cast; norm_num
  exact ⟨⟨h, (mask_edge_and_cache.1 200 184 163).2 h⟩,
    mask_edge_and_cache.2 ℕ (fun n => n) [] 64⟩

/-- C6, counterexample to the formula as claimed: no proportionality
constant relates the implemented alpha to
`255 - clamp(distance - radius + 0.5, 0, 255)`. At the center of a
diameter-200 mask both formulas give 255 (forcing the constant to be 1),
yet at pixel (184, 163) — distance 105 from the center — the
implementation gives alpha 0 while the claimed formula gives 249.5. -/
theorem mask_formula_not_proportional :
    ¬ ∃ c : ℝ, ∀ x y : ℕ, x < 200 → y < 200 →
      (maskAlpha 200 x y : ℝ) = c * specMaskAlpha 200 x y := by
  rintro ⟨c, hc⟩
  have e0 : specMaskAlpha 200 100 100 = 255 := by
    unfold specMaskAlpha
    rw [pixelDist_center_200]
    rw [show (0:ℝ) - ((200:ℕ):ℝ) / 2 + 1 / 2 = -199/2 by push_cast; ring]
    rw [show max (-199/2 : ℝ) 0 = 0 by rw [max_eq_right]; norm_num]
    norm_num
  have e1 : specMaskAlpha 200 184 163 = 499 / 2 := by
    unfold specMaskAlpha
    rw [pixelDist_edge_200]
    rw [show (105:ℝ) - ((200:ℕ):ℝ) / 2 + 1 / 2 = 11/2 by push_cast; ring]
    rw [show max (11/2 : ℝ) 0 = 11/2 by rw [max_eq_left]; norm_num]
    rw [show min (11/2 : ℝ) 255 = 11/2 by rw [min_eq_left]; norm_num]
    norm_num
  have m0 : maskAlpha 200 100 100 = 255 := by
    apply maskAlpha_edge_full
    rw [pixelDist_center_200]; push_cast; norm_num
  have m1 : maskAlpha 200 184 163 = 0 := by
    apply maskAlpha_edge_zero
    rw [pixelDist_edge_200]; push_cast; norm_num
  have h0 := hc 100 100 (by norm_num) (by norm_num)
  have h1 := hc 184 163 (by norm_num) (by norm_num)
  rw [m0, e0] at h0
  rw [m1, e1] at h1
  push_cast at h0 h1
  have hc1 : c = 1 := by linarith
  rw [hc1] at h1
  norm_num at h1
